import Mathlib

/-!
Verification of the clock-drift detection core of `timon.py`.

The embedding models time values as exact rationals (`ℚ`).  A Python
`dict` returned by `get_time_status` becomes the structure `TimeStatus`;
the `TimeMonitor` class becomes a structure whose mutable field
`_last_status` is threaded explicitly: the method `monitor` returns the
updated monitor together with the argument pair the callback would
receive (`none` when the callback is not invoked).

Python's `datetime.timedelta` normalisation is modelled exactly for the
`timedelta(seconds=q)` calls the program makes: the seconds argument is
converted to microseconds, rounded half-to-even, and normalised so that
`0 ≤ microseconds < 10^6` and `0 ≤ seconds < 86400` (Python's `divmod`
is floor division, i.e. `Int.ediv`/`Int.emod` for positive divisors).
-/

/-- Result of `get_time_status()`: the dict with keys `timestamp`,
`monotonic_seconds` and `diff`. -/
structure TimeStatus where
  timestamp : ℚ
  monotonic_seconds : ℚ
  diff : ℚ
deriving DecidableEq, Repr

/-- `get_time_status()` parameterised by the two clock reads of the
sample: it packages them with `diff = timestamp - monotonic_seconds`. -/
def get_time_status (timestamp monotonic_seconds : ℚ) : TimeStatus :=
  { timestamp := timestamp
  , monotonic_seconds := monotonic_seconds
  , diff := timestamp - monotonic_seconds }

/-- The `TimeMonitor` object: configuration `_max_seconds` and the held
state `_last_status`. -/
structure TimeMonitor where
  max_seconds : ℚ
  last_status : TimeStatus
deriving DecidableEq, Repr

/-- `TimeMonitor.__init__(warn_seconds)`, parameterised by the clock
reads of its initial `get_time_status()` sample.  It stores the
threshold unchecked and the initial status. -/
def TimeMonitor.init (warn_seconds timestamp monotonic_seconds : ℚ) : TimeMonitor :=
  { max_seconds := warn_seconds
  , last_status := get_time_status timestamp monotonic_seconds }

/-- `TimeMonitor.monitor(callback)`, parameterised by the new status
sampled inside the call.  Returns the updated monitor (the assignment
`self._last_status = status` happens unconditionally, before the
comparison) and `some (status, last_status)` exactly when the code
invokes `callback(status, last_status)`. -/
def TimeMonitor.monitor (m : TimeMonitor) (status : TimeStatus) :
    TimeMonitor × Option (TimeStatus × TimeStatus) :=
  let last_status := m.last_status
  let m2 : TimeMonitor := { m with last_status := status }
  if |status.diff - last_status.diff| > m.max_seconds then
    (m2, some (status, last_status))
  else
    (m2, none)

/-- `TimeMonitor.monitor(callback)` with the callback made explicit and
fallible: the callback may raise (return `Except.error`).  The body
mirrors the source order: `self._last_status = status` is executed
before the comparison and the callback, so the returned monitor state
is the same whether the callback succeeds or raises. -/
def TimeMonitor.monitorExc {ε : Type} (m : TimeMonitor) (status : TimeStatus)
    (callback : TimeStatus → TimeStatus → Except ε Unit) :
    TimeMonitor × Except ε Unit :=
  let last_status := m.last_status
  let m2 : TimeMonitor := { m with last_status := status }
  if |status.diff - last_status.diff| > m.max_seconds then
    (m2, callback status last_status)
  else
    (m2, Except.ok ())

/-- Repeated invocation of `monitor` on a list of sampled statuses;
collects every argument pair passed to the callback, in order. -/
def TimeMonitor.run : TimeMonitor → List TimeStatus → TimeMonitor × List (TimeStatus × TimeStatus)
  | m, [] => (m, [])
  | m, s :: rest =>
    let step := m.monitor s
    let next := step.1.run rest
    (next.1, step.2.toList ++ next.2)

/-- Holds when each status in the list changes `diff` by at most `t`
relative to its predecessor (the first is compared against `prev`). -/
def withinThreshold (t : ℚ) : ℚ → List TimeStatus → Bool
  | _, [] => true
  | prev, s :: rest => decide (|s.diff - prev| ≤ t) && withinThreshold t s.diff rest

/-- Round a rational to the nearest integer, ties to the even integer:
the rounding Python applies to the fractional-microseconds remainder in
the `timedelta` constructor. -/
def roundHalfEven (q : ℚ) : ℤ :=
  let f := ⌊q⌋
  let r := q - (f : ℚ)
  if r < 1/2 then f
  else if 1/2 < r then f + 1
  else if Int.emod f 2 = 0 then f else f + 1

/-- A normalised `datetime.timedelta` value: `0 ≤ seconds < 86400` and
`0 ≤ microseconds < 10^6` for every value built by `ofSeconds`. -/
structure Timedelta where
  days : ℤ
  seconds : ℕ
  microseconds : ℕ
deriving DecidableEq, Repr

/-- `timedelta(seconds=q)`: convert to microseconds, round half-to-even,
then normalise by floor division (Python `divmod`). -/
def Timedelta.ofSeconds (q : ℚ) : Timedelta :=
  let us := roundHalfEven (q * 1000000)
  let total := Int.ediv us 1000000
  { days := Int.ediv total 86400
  , seconds := (Int.emod total 86400).toNat
  , microseconds := (Int.emod us 1000000).toNat }

/-- `format_timedelta(td)`: decompose `td.seconds` by `divmod` into
hours, minutes, seconds; render the four units largest first, each only
when strictly positive; all-zero renders the sentinel `0秒`. -/
def format_timedelta (td : Timedelta) : String :=
  let days := td.days
  let hours := td.seconds / 3600
  let remain1 := td.seconds % 3600
  let minutes := remain1 / 60
  let seconds := remain1 % 60
  if days = 0 ∧ hours = 0 ∧ minutes = 0 ∧ seconds = 0 then "0秒"
  else
    (if 0 < days then toString days ++ "天" else "")
    ++ (if 0 < hours then toString hours ++ "小时" else "")
    ++ (if 0 < minutes then toString minutes ++ "分钟" else "")
    ++ (if 0 < seconds then toString seconds ++ "秒" else "")

/-- `get_time_warning(status, last_status)`: the signed monotonic
elapsed time and the absolute wall-clock change, each formatted, spliced
into the warning sentence. -/
def get_time_warning (status last_status : TimeStatus) : String :=
  let m_change := status.monotonic_seconds - last_status.monotonic_seconds
  let t_change := |status.timestamp - last_status.timestamp|
  "过去" ++ format_timedelta (Timedelta.ofSeconds m_change)
    ++ "内，系统时间变化达到" ++ format_timedelta (Timedelta.ofSeconds t_change)

/-- The configuration failure the specification prescribes for a
non-positive threshold. -/
inductive ConfigError where
  | configurationError
deriving DecidableEq, Repr

/-- Specification-side constructor, following the words of the spec
(`DriftMonitor::new` "fails (rejects construction) if threshold <= 0"),
for comparison with the constructor the code actually has. -/
def driftMonitorNewSpec (threshold timestamp monotonic_seconds : ℚ) :
    Except ConfigError TimeMonitor :=
  if threshold ≤ 0 then Except.error ConfigError.configurationError
  else Except.ok (TimeMonitor.init threshold timestamp monotonic_seconds)

/-! ### Helper lemmas about `monitor` -/

theorem monitor_fst (m : TimeMonitor) (s : TimeStatus) :
    (m.monitor s).1 = { m with last_status := s } := by
  simp only [TimeMonitor.monitor]
  split <;> rfl

theorem monitor_isSome_iff (m : TimeMonitor) (s : TimeStatus) :
    (m.monitor s).2.isSome = true ↔ |s.diff - m.last_status.diff| > m.max_seconds := by
  simp only [TimeMonitor.monitor]
  split <;> simp_all

theorem monitor_eq_none_iff (m : TimeMonitor) (s : TimeStatus) :
    (m.monitor s).2 = none ↔ ¬ |s.diff - m.last_status.diff| > m.max_seconds := by
  simp only [TimeMonitor.monitor]
  split <;> simp_all

theorem monitor_fired (m : TimeMonitor) (s : TimeStatus)
    (h : |s.diff - m.last_status.diff| > m.max_seconds) :
    m.monitor s = ({ m with last_status := s }, some (s, m.last_status)) := by
  simp only [TimeMonitor.monitor]
  split <;> simp_all

/-! ### Claims -/

/-- C1, counterexample: constructing a `TimeMonitor` with threshold `0`
(or `-5`) does not fail — the constructor stores the non-positive
threshold and the initial sample and returns a monitor — whereas the
constructor the spec describes rejects threshold `0` with a
`ConfigurationError`. -/
theorem c1_counterexample_nonpositive_threshold_accepted :
    TimeMonitor.init 0 5 3
        = { max_seconds := 0
          , last_status := { timestamp := 5, monotonic_seconds := 3, diff := 2 } }
    ∧ TimeMonitor.init (-5) 5 3
        = { max_seconds := -5
          , last_status := { timestamp := 5, monotonic_seconds := 3, diff := 2 } }
    ∧ driftMonitorNewSpec 0 5 3 = Except.error ConfigError.configurationError := by
  refine ⟨?_, ?_, ?_⟩
  · norm_num [TimeMonitor.init, get_time_status, TimeMonitor.mk.injEq, TimeStatus.mk.injEq]
  · norm_num [TimeMonitor.init, get_time_status, TimeMonitor.mk.injEq, TimeStatus.mk.injEq]
  · simp [driftMonitorNewSpec]

/-- C1, amended: construction never fails; any threshold — in particular
a zero or negative one — is accepted and stored unvalidated, together
with the initial sample. -/
theorem c1_amended_construction_accepts_any_threshold (t ts mono : ℚ) (h : t ≤ 0) :
    (TimeMonitor.init t ts mono).max_seconds = t
    ∧ (TimeMonitor.init t ts mono).last_status = get_time_status ts mono :=
  ⟨rfl, rfl⟩

/-- C1, witness for the amended theorem at threshold `0`. -/
theorem c1_amended_construction_accepts_any_threshold_witness :
    (0:ℚ) ≤ 0
    ∧ ((TimeMonitor.init 0 7 2).max_seconds = 0
      ∧ (TimeMonitor.init 0 7 2).last_status = get_time_status 7 2) :=
  ⟨le_refl 0, c1_amended_construction_accepts_any_threshold 0 7 2 (le_refl 0)⟩

/-- C2: a check fires the callback iff the absolute offset change
strictly exceeds the threshold; a change of exactly the threshold does
not fire, a change of the threshold plus any positive epsilon does. -/
theorem c2_anomaly_iff_offset_change_exceeds_threshold (m : TimeMonitor) (s : TimeStatus) :
    ((m.monitor s).2.isSome = true ↔ |s.diff - m.last_status.diff| > m.max_seconds)
    ∧ (|s.diff - m.last_status.diff| = m.max_seconds → (m.monitor s).2 = none)
    ∧ (∀ e : ℚ, 0 < e → |s.diff - m.last_status.diff| = m.max_seconds + e →
        (m.monitor s).2.isSome = true) := by
  refine ⟨monitor_isSome_iff m s, ?_, ?_⟩
  · intro h
    rw [monitor_eq_none_iff, h]
    exact lt_irrefl _
  · intro e he h
    rw [monitor_isSome_iff, h]
    show m.max_seconds < m.max_seconds + e
    linarith

/-- C3: detection is symmetric in direction — a forward offset jump of
magnitude `d` fires exactly when a backward jump of magnitude `d` does,
and for magnitude `threshold + 1` both directions fire. -/
theorem c3_detection_symmetric_in_direction (m : TimeMonitor) (ts mono ts2 mono2 d : ℚ) :
    ((m.monitor ⟨ts, mono, m.last_status.diff + d⟩).2.isSome = true ↔
      (m.monitor ⟨ts2, mono2, m.last_status.diff - d⟩).2.isSome = true)
    ∧ (m.monitor ⟨ts, mono, m.last_status.diff + (m.max_seconds + 1)⟩).2.isSome = true
    ∧ (m.monitor ⟨ts2, mono2, m.last_status.diff - (m.max_seconds + 1)⟩).2.isSome = true := by
  have habs : ∀ x : ℚ, |m.last_status.diff + x - m.last_status.diff| = |x| := by
    intro x; rw [add_sub_cancel_left]
  have habs2 : ∀ x : ℚ, |m.last_status.diff - x - m.last_status.diff| = |x| := by
    intro x; rw [sub_sub_cancel_left, abs_neg]
  have hgt : |m.max_seconds + 1| > m.max_seconds := by
    rcases abs_cases (m.max_seconds + 1) with ⟨h1, _⟩ | ⟨h1, _⟩ <;> rw [h1] <;> linarith
  refine ⟨?_, ?_, ?_⟩
  · rw [monitor_isSome_iff, monitor_isSome_iff]
    show |m.last_status.diff + d - m.last_status.diff| > _ ↔
      |m.last_status.diff - d - m.last_status.diff| > _
    rw [habs, habs2]
  · rw [monitor_isSome_iff]
    show |m.last_status.diff + (m.max_seconds + 1) - m.last_status.diff| > _
    rw [habs]; exact hgt
  · rw [monitor_isSome_iff]
    show |m.last_status.diff - (m.max_seconds + 1) - m.last_status.diff| > _
    rw [habs2]; exact hgt

/-- C4: every check unconditionally replaces the held snapshot with the
new one, so an immediately following check whose snapshot has the same
offset reports no anomaly. -/
theorem c4_state_replaced_unconditionally (m : TimeMonitor) (s s2 : TimeStatus)
    (h0 : 0 ≤ m.max_seconds) (hdiff : s2.diff = s.diff) :
    (m.monitor s).1.last_status = s ∧ ((m.monitor s).1.monitor s2).2 = none := by
  have h1 := monitor_fst m s
  constructor
  · rw [h1]
  · rw [h1, monitor_eq_none_iff]
    show ¬ |s2.diff - s.diff| > m.max_seconds
    rw [hdiff, sub_self, abs_zero]
    exact not_lt.mpr h0

/-- C4, witness: a monitor with threshold 300 that just fired still
holds the new snapshot, and a repeat check with unchanged offset is
quiet. -/
theorem c4_state_replaced_unconditionally_witness :
    0 ≤ (TimeMonitor.init 300 1000 100).max_seconds
    ∧ (⟨2002, 202, 1800⟩ : TimeStatus).diff = (⟨2000, 200, 1800⟩ : TimeStatus).diff
    ∧ (((TimeMonitor.init 300 1000 100).monitor ⟨2000, 200, 1800⟩).1.last_status
          = ⟨2000, 200, 1800⟩
      ∧ (((TimeMonitor.init 300 1000 100).monitor ⟨2000, 200, 1800⟩).1.monitor
          ⟨2002, 202, 1800⟩).2 = none) :=
  ⟨by norm_num [TimeMonitor.init], rfl,
    c4_state_replaced_unconditionally (TimeMonitor.init 300 1000 100)
      ⟨2000, 200, 1800⟩ ⟨2002, 202, 1800⟩ (by norm_num [TimeMonitor.init]) rfl⟩

/-- C7: a snapshot built by `get_time_status` has
`diff = timestamp - monotonic_seconds`, and the anomaly decision reads
only the `diff` fields — two new snapshots with equal `diff` are
indistinguishable to it (the raw clock readings are never compared). -/
theorem c7_offset_computed_from_sample (ts mono : ℚ) (m : TimeMonitor) (s s2 : TimeStatus)
    (hdiff : s.diff = s2.diff) :
    (get_time_status ts mono).diff = ts - mono
    ∧ ((m.monitor s).2.isSome = true ↔ (m.monitor s2).2.isSome = true) := by
  refine ⟨rfl, ?_⟩
  rw [monitor_isSome_iff, monitor_isSome_iff, hdiff]

/-- C7, witness: two snapshots with different raw readings but equal
offsets yield the same decision. -/
theorem c7_offset_computed_from_sample_witness :
    (⟨1, 2, 7⟩ : TimeStatus).diff = (⟨10, 20, 7⟩ : TimeStatus).diff
    ∧ ((get_time_status 5 3).diff = 5 - 3
      ∧ (((TimeMonitor.init 300 1000 100).monitor ⟨1, 2, 7⟩).2.isSome = true ↔
          ((TimeMonitor.init 300 1000 100).monitor ⟨10, 20, 7⟩).2.isSome = true)) :=
  ⟨rfl, c7_offset_computed_from_sample 5 3 (TimeMonitor.init 300 1000 100)
      ⟨1, 2, 7⟩ ⟨10, 20, 7⟩ rfl⟩

/-- C10: the held state is overwritten before the callback runs — the
monitor returned by `monitorExc` holds the new snapshot whether the
callback succeeds or raises, it coincides with the state `monitor`
produces, and the next check compares against the new snapshot. -/
theorem c10_state_advances_before_callback {ε : Type} (m : TimeMonitor) (s s2 : TimeStatus)
    (cb : TimeStatus → TimeStatus → Except ε Unit) :
    (m.monitorExc s cb).1 = (m.monitor s).1
    ∧ (m.monitorExc s cb).1.last_status = s
    ∧ (((m.monitorExc s cb).1.monitor s2).2.isSome = true ↔
        |s2.diff - s.diff| > m.max_seconds) := by
  have h1 : (m.monitorExc s cb).1 = { m with last_status := s } := by
    simp only [TimeMonitor.monitorExc]
    split <;> rfl
  refine ⟨?_, ?_, ?_⟩
  · rw [h1, monitor_fst]
  · rw [h1]
  · rw [h1, monitor_isSome_iff]

/-- C8: along any sequence of checks in which each new offset differs
from the previous one by at most the threshold, no check ever invokes
the callback. -/
theorem c8_no_anomaly_when_changes_within_threshold (m : TimeMonitor) (l : List TimeStatus)
    (h : withinThreshold m.max_seconds m.last_status.diff l = true) :
    (m.run l).2 = [] := by
  induction l generalizing m with
  | nil => rfl
  | cons s rest ih =>
    rw [withinThreshold, Bool.and_eq_true] at h
    obtain ⟨h1, h2⟩ := h
    have hle : |s.diff - m.last_status.diff| ≤ m.max_seconds := of_decide_eq_true h1
    have hnone : (m.monitor s).2 = none := by
      rw [monitor_eq_none_iff]
      exact not_lt.mpr hle
    simp only [TimeMonitor.run]
    rw [hnone, monitor_fst]
    simp only [Option.toList_none, List.nil_append]
    exact ih _ h2

/-- C8, witness: three checks whose offsets move by 100, 200 and 0
seconds against a 300-second threshold produce no events. -/
theorem c8_no_anomaly_when_changes_within_threshold_witness :
    withinThreshold (TimeMonitor.init 300 1000 100).max_seconds
        (TimeMonitor.init 300 1000 100).last_status.diff
        [⟨1, 2, 1000⟩, ⟨3, 4, 800⟩, ⟨5, 6, 800⟩] = true
    ∧ ((TimeMonitor.init 300 1000 100).run [⟨1, 2, 1000⟩, ⟨3, 4, 800⟩, ⟨5, 6, 800⟩]).2 = [] := by
  have h : withinThreshold (TimeMonitor.init 300 1000 100).max_seconds
      (TimeMonitor.init 300 1000 100).last_status.diff
      [⟨1, 2, 1000⟩, ⟨3, 4, 800⟩, ⟨5, 6, 800⟩] = true := by
    simp only [withinThreshold, TimeMonitor.init, get_time_status, Bool.and_eq_true,
      decide_eq_true_eq, abs_le]
    norm_num
  exact ⟨h, c8_no_anomaly_when_changes_within_threshold _ _ h⟩

/-- Rendering an integer that came from a natural number is rendering
the natural number. -/
theorem toString_intCast (n : ℕ) : toString ((n : ℤ)) = toString n := rfl

/-- C6: on a non-negative duration of `d` days, `h` hours, `mi` minutes
and `s` seconds, the formatter recovers the four components by floor
division and renders them largest unit first, omitting each zero
component; the all-zero duration renders the sentinel `0秒`. -/
theorem c6_format_decomposes_units (d h mi s : ℕ) (hh : h < 24) (hm : mi < 60) (hs : s < 60) :
    format_timedelta ⟨(d : ℤ), h * 3600 + mi * 60 + s, 0⟩ =
      if d = 0 ∧ h = 0 ∧ mi = 0 ∧ s = 0 then "0秒"
      else (if 0 < d then toString d ++ "天" else "")
        ++ (if 0 < h then toString h ++ "小时" else "")
        ++ (if 0 < mi then toString mi ++ "分钟" else "")
        ++ (if 0 < s then toString s ++ "秒" else "") := by
  have e1 : (h * 3600 + mi * 60 + s) / 3600 = h := by omega
  have e2 : (h * 3600 + mi * 60 + s) % 3600 = mi * 60 + s := by omega
  have e3 : (mi * 60 + s) / 60 = mi := by omega
  have e4 : (mi * 60 + s) % 60 = s := by omega
  dsimp only [format_timedelta]
  rw [e1, e2, e3, e4]
  simp only [Nat.cast_eq_zero, Nat.cast_pos, toString_intCast]

/-- C6, witness: one day, two hours, three minutes and four seconds,
all non-zero, rendered in descending order. -/
theorem c6_format_decomposes_units_witness :
    (2 < 24 ∧ 3 < 60 ∧ 4 < 60)
    ∧ format_timedelta ⟨((1:ℕ) : ℤ), 2 * 3600 + 3 * 60 + 4, 0⟩ =
        (if (1:ℕ) = 0 ∧ (2:ℕ) = 0 ∧ (3:ℕ) = 0 ∧ (4:ℕ) = 0 then "0秒"
        else (if 0 < (1:ℕ) then toString (1:ℕ) ++ "天" else "")
          ++ (if 0 < (2:ℕ) then toString (2:ℕ) ++ "小时" else "")
          ++ (if 0 < (3:ℕ) then toString (3:ℕ) ++ "分钟" else "")
          ++ (if 0 < (4:ℕ) then toString (4:ℕ) ++ "秒" else "")) :=
  ⟨⟨by decide, by decide, by decide⟩,
    c6_format_decomposes_units 1 2 3 4 (by decide) (by decide) (by decide)⟩

/-! ### Rounding bounds for `roundHalfEven` -/

theorem roundHalfEven_nonneg (q : ℚ) (h : 0 ≤ q) : 0 ≤ roundHalfEven q := by
  have hf : 0 ≤ ⌊q⌋ := Int.floor_nonneg.mpr h
  simp only [roundHalfEven]
  split_ifs <;> omega

theorem roundHalfEven_le (q : ℚ) (n : ℤ) (h : q < (n : ℚ) + 1/2) : roundHalfEven q ≤ n := by
  have hfq : (⌊q⌋ : ℚ) ≤ q := Int.floor_le q
  have hfn : ⌊q⌋ ≤ n := by
    have h2 : (⌊q⌋ : ℚ) < (n : ℚ) + 1 := by linarith
    have h3 : ⌊q⌋ < n + 1 := by exact_mod_cast h2
    omega
  simp only [roundHalfEven]
  split_ifs with h1 h2 h3
  · exact hfn
  · have h4 : (⌊q⌋ : ℚ) < (n : ℚ) := by linarith
    have h5 : ⌊q⌋ < n := by exact_mod_cast h4
    omega
  · exact hfn
  · have hr : q - (⌊q⌋ : ℚ) = 1/2 := le_antisymm (not_lt.mp h2) (not_lt.mp h1)
    have h4 : (⌊q⌋ : ℚ) < (n : ℚ) := by linarith
    have h5 : ⌊q⌋ < n := by exact_mod_cast h4
    omega

/-- A duration whose microsecond total rounds below one second
normalises to zero days and zero whole seconds. -/
theorem ofSeconds_days_seconds_zero (q : ℚ) (h0 : 0 ≤ q) (h1 : q < 1999999/2000000) :
    (Timedelta.ofSeconds q).days = 0 ∧ (Timedelta.ofSeconds q).seconds = 0 := by
  have hus0 : 0 ≤ roundHalfEven (q * 1000000) :=
    roundHalfEven_nonneg _ (mul_nonneg h0 (by norm_num))
  have hus1 : roundHalfEven (q * 1000000) ≤ 999999 := by
    apply roundHalfEven_le
    push_cast
    linarith
  have htotal : Int.ediv (roundHalfEven (q * 1000000)) 1000000 = 0 :=
    Int.ediv_eq_zero_of_lt hus0 (by omega)
  simp only [Timedelta.ofSeconds, htotal]
  constructor <;> rfl

/-- C9, counterexample: the duration `0.9999999` seconds is non-negative
and strictly shorter than one second, yet it formats as `1秒`, not the
zero sentinel — Python rounds the 999999.9 microseconds up to a full
second before the decomposition. -/
theorem c9_counterexample_subsecond_rounds_up :
    (0:ℚ) ≤ 9999999/10000000 ∧ (9999999/10000000 : ℚ) < 1
    ∧ format_timedelta (Timedelta.ofSeconds (9999999/10000000)) = "1秒" := by
  refine ⟨by norm_num, by norm_num, ?_⟩
  have hr : roundHalfEven ((9999999:ℚ)/10000000 * 1000000) = 1000000 := by
    have hq : ((9999999:ℚ)/10000000 * 1000000) = 9999999/10 := by norm_num
    rw [hq]
    have hf : ⌊(9999999:ℚ)/10⌋ = 999999 := by norm_num [Int.floor_eq_iff]
    unfold roundHalfEven
    rw [hf]
    norm_num
  simp only [Timedelta.ofSeconds, hr]
  decide

/-- C9, amended: every non-negative duration strictly below
`999999.5` microseconds (one second minus half the rounding granularity)
formats as the zero sentinel `0秒`; sub-second durations within half a
microsecond of one second instead round up and format as `1秒`. -/
theorem c9_amended_subsecond_formats_as_zero (q : ℚ) (h0 : 0 ≤ q)
    (h1 : q < 1999999/2000000) :
    format_timedelta (Timedelta.ofSeconds q) = "0秒" := by
  obtain ⟨hd, hs⟩ := ofSeconds_days_seconds_zero q h0 h1
  simp only [format_timedelta, hd, hs]
  norm_num

/-- C9, witness for the amended theorem: half a second formats as the
zero sentinel. -/
theorem c9_amended_subsecond_formats_as_zero_witness :
    (0:ℚ) ≤ 1/2 ∧ (1/2 : ℚ) < 1999999/2000000
    ∧ format_timedelta (Timedelta.ofSeconds (1/2)) = "0秒" :=
  ⟨by norm_num, by norm_num,
    c9_amended_subsecond_formats_as_zero (1/2) (by norm_num) (by norm_num)⟩

/-- C5: when a check fires, the callback receives the new and the
previous snapshot, and the warning built from them splices the formatted
signed monotonic elapsed time and the formatted absolute wall-clock
change into the message text. -/
theorem c5_event_payload_and_message (m : TimeMonitor) (s : TimeStatus)
    (h : |s.diff - m.last_status.diff| > m.max_seconds) :
    (m.monitor s).2 = some (s, m.last_status)
    ∧ get_time_warning s m.last_status =
        "过去"
        ++ format_timedelta
            (Timedelta.ofSeconds (s.monotonic_seconds - m.last_status.monotonic_seconds))
        ++ "内，系统时间变化达到"
        ++ format_timedelta (Timedelta.ofSeconds |s.timestamp - m.last_status.timestamp|) := by
  constructor
  · rw [monitor_fired m s h]
  · rfl

/-- C5, witness: a monitor with threshold 300 whose offset jumps by 500
fires, and the warning message splices the two formatted durations. -/
theorem c5_event_payload_and_message_witness :
    |(⟨2402, 1002, 1400⟩ : TimeStatus).diff - (TimeMonitor.init 300 1000 100).last_status.diff|
        > (TimeMonitor.init 300 1000 100).max_seconds
    ∧ (((TimeMonitor.init 300 1000 100).monitor ⟨2402, 1002, 1400⟩).2
          = some (⟨2402, 1002, 1400⟩, (TimeMonitor.init 300 1000 100).last_status)
      ∧ get_time_warning ⟨2402, 1002, 1400⟩ (TimeMonitor.init 300 1000 100).last_status =
          "过去"
          ++ format_timedelta
              (Timedelta.ofSeconds ((⟨2402, 1002, 1400⟩ : TimeStatus).monotonic_seconds
                - (TimeMonitor.init 300 1000 100).last_status.monotonic_seconds))
          ++ "内，系统时间变化达到"
          ++ format_timedelta
              (Timedelta.ofSeconds |(⟨2402, 1002, 1400⟩ : TimeStatus).timestamp
                - (TimeMonitor.init 300 1000 100).last_status.timestamp|)) := by
  have hp : |(⟨2402, 1002, 1400⟩ : TimeStatus).diff
      - (TimeMonitor.init 300 1000 100).last_status.diff|
      > (TimeMonitor.init 300 1000 100).max_seconds := by
    norm_num [TimeMonitor.init, get_time_status, lt_abs]
  exact ⟨hp, c5_event_payload_and_message (TimeMonitor.init 300 1000 100) ⟨2402, 1002, 1400⟩ hp⟩
